import Mathlib

/-!
Shallow embedding of the client-side reactive state layer of the
ecommerce-store repository: the products Entity Store
(`src/app/core/services/products.service.ts`), the response cache
(`src/app/core/services/http-cache.service.ts`) and the cart store
(`cart.service.ts`).

Conventions of the embedding:

* JS numbers (ids, prices, quantities, timestamps, ttls, status codes) are
  modelled as `Int`.
* An Angular signal's value is a field of an explicit state record; a
  method that starts an HTTP request and later settles is modelled as one
  state-transition function taking the settlement result
  (`Except HttpErr α`) as an argument, mirroring first the synchronous
  start of the method and then the `catchError`/`subscribe` handlers.
* `Array.prototype.sort` with a comparator (stable per ECMA-262) is
  modelled by `List.insertionSort` on the reflexive closure of the
  comparator, which is stable; for a consistent comparator (ours compare
  a single key) every stable sort produces the same output.
* `String.prototype.localeCompare` is modelled as a three-valued string
  comparison that returns 0 exactly on equal strings.
-/

namespace EcommerceStore

/-- The error value observed by the services' catchError handlers: either an
object carrying a transport status code, or anything else (generic). -/
inductive HttpErr where
  | withStatus (status : Int)
  | generic
deriving DecidableEq

/-- Embeds the private helper getErrorMessage shared by ProductsService and
CartService. -/
def getErrorMessage (err : HttpErr) (defaultMsg : String) : String :=
  match err with
  | .withStatus s => if s = 0 then "Network error. Please check your connection."
                     else defaultMsg ++ " (Status: " ++ toString s ++ ")"
  | .generic => defaultMsg

/-- Product rating sub-record. -/
structure Rating where
  rate : Int
  count : Int
deriving DecidableEq

/-- The Product entity of products.service.ts. -/
structure Product where
  id : Int
  title : String
  price : Int
  description : String
  category : String
  image : String
  rating : Rating
deriving DecidableEq

/-- The SortField union type of products.service.ts. -/
inductive SortField where
  | name
  | price
  | rating
deriving DecidableEq

/-- The SortOrder union type of products.service.ts. -/
inductive SortOrder where
  | asc
  | desc
deriving DecidableEq

/-- The signal-backed state owned by one ProductsService instance. -/
structure ProductsState where
  products : List Product
  loading : Bool
  error : Option String
  currentProduct : Option Product
  productLoading : Bool
  productError : Option String
  searchTerm : String
  selectedCategory : String
  minPrice : Int
  maxPrice : Int
  sortBy : SortField
  sortOrder : SortOrder
deriving DecidableEq

namespace ProductsState

/-- loadProducts: start (loading true, error cleared) followed by the
settlement handlers; on failure catchError records the message and forwards
an empty list, which subscribe installs as the collection. -/
def loadProducts (st : ProductsState) (res : Except HttpErr (List Product)) :
    ProductsState :=
  let st1 := { st with loading := true, error := none }
  match res with
  | .ok data =>
      { st1 with products := data, loading := false }
  | .error e =>
      { st1 with
          error := some (getErrorMessage e "Failed to load products"),
          products := [], loading := false }

/-- getProductById: start clears single-item status and current product; on
success the returned product becomes current, on failure only the error is
recorded. -/
def getProductById (st : ProductsState) (i : Int)
    (res : Except HttpErr Product) : ProductsState :=
  let st1 := { st with productLoading := true, productError := none,
                       currentProduct := none }
  match res with
  | .ok data =>
      { st1 with currentProduct := some data, productLoading := false }
  | .error e =>
      { st1 with
          productError :=
            some (getErrorMessage e ("Failed to load product " ++ toString i)),
          productLoading := false }

/-- addProduct: on success the returned entity is appended to the collection
and becomes the current product; on failure (subscribe sees null) only the
error is recorded. -/
def addProduct (st : ProductsState) (res : Except HttpErr Product) :
    ProductsState :=
  let st1 := { st with productLoading := true, productError := none }
  match res with
  | .ok data =>
      { st1 with products := st1.products ++ [data],
                 currentProduct := some data, productLoading := false }
  | .error e =>
      { st1 with
          productError := some (getErrorMessage e "Failed to create product"),
          productLoading := false }

/-- updateProduct: on success every collection member whose id equals the
requested id is replaced by the returned entity (position preserved) and the
returned entity becomes current; on failure only the error is recorded. -/
def updateProduct (st : ProductsState) (i : Int)
    (res : Except HttpErr Product) : ProductsState :=
  let st1 := { st with productLoading := true, productError := none }
  match res with
  | .ok data =>
      { st1 with
          products := st1.products.map (fun p => if p.id == i then data else p),
          currentProduct := some data, productLoading := false }
  | .error e =>
      { st1 with
          productError :=
            some (getErrorMessage e ("Failed to update product " ++ toString i)),
          productLoading := false }

/-- deleteProduct: catchError records the error and forwards null, and the
subscribe handler runs unconditionally afterwards, so the collection is
filtered and the current product cleared on success AND on failure. -/
def deleteProduct (st : ProductsState) (i : Int)
    (res : Except HttpErr Unit) : ProductsState :=
  let st1 := { st with productLoading := true, productError := none }
  let st2 :=
    match res with
    | .ok _ => st1
    | .error e =>
        { st1 with
            productError :=
              some (getErrorMessage e ("Failed to delete product " ++ toString i)) }
  { st2 with products := st2.products.filter (fun p => p.id != i),
             currentProduct := none, productLoading := false }

/-- clearCurrentProduct. -/
def clearCurrentProduct (st : ProductsState) : ProductsState :=
  { st with currentProduct := none, productError := none }

/-- setSearchTerm stores the trimmed term. -/
def setSearchTerm (st : ProductsState) (term : String) : ProductsState :=
  { st with searchTerm := term.trim }

/-- setCategory. -/
def setCategory (st : ProductsState) (category : String) : ProductsState :=
  { st with selectedCategory := category }

/-- setPriceRange: minPrice becomes Math.max(0, min) and maxPrice becomes
Math.max(min, max), where min is the ORIGINAL argument, not the clamped one. -/
def setPriceRange (st : ProductsState) (mn mx : Int) : ProductsState :=
  { st with minPrice := max 0 mn, maxPrice := max mn mx }

/-- setSort: clicking the active field toggles the order, a new field resets
the order to ascending. -/
def setSort (st : ProductsState) (field : SortField) : ProductsState :=
  if st.sortBy = field then
    { st with sortOrder := if st.sortOrder = SortOrder.asc then SortOrder.desc
                           else SortOrder.asc }
  else
    { st with sortBy := field, sortOrder := SortOrder.asc }

/-- clearFilters. -/
def clearFilters (st : ProductsState) : ProductsState :=
  { st with searchTerm := "", selectedCategory := "", minPrice := 0,
            maxPrice := 10000, sortBy := SortField.name,
            sortOrder := SortOrder.asc }

end ProductsState

/-- Character-list model of JS String.prototype.includes. -/
def charsInclude (sub : List Char) : List Char → Bool
  | [] => sub == []
  | c :: rest => sub.isPrefixOf (c :: rest) || charsInclude sub rest

/-- String containment used by the search filter. -/
def strIncludes (s sub : String) : Bool :=
  charsInclude sub.data s.data

/-- Model of String.prototype.localeCompare: 0 on equal strings, otherwise
-1 or 1 by the model's string order. -/
def localeCompare (a b : String) : Int :=
  if a = b then 0 else if a < b then -1 else 1

/-- Search stage of filteredProducts: skipped for the empty (falsy) term,
otherwise case-insensitive containment in title, description or category. -/
def searchStage (term : String) (l : List Product) : List Product :=
  if term = "" then l
  else
    let t := term.toLower
    l.filter (fun p =>
      strIncludes p.title.toLower t || strIncludes p.description.toLower t ||
        strIncludes p.category.toLower t)

/-- Category stage of filteredProducts: skipped for the empty selection. -/
def categoryStage (cat : String) (l : List Product) : List Product :=
  if cat = "" then l else l.filter (fun p => p.category == cat)

/-- Price-range stage of filteredProducts: inclusive bounds. -/
def priceStage (lo hi : Int) (l : List Product) : List Product :=
  l.filter (fun p => decide (lo ≤ p.price) && decide (p.price ≤ hi))

/-- The comparator's base comparison, selected by the sort field. -/
def baseCmp : SortField → Product → Product → Int
  | SortField.name, a, b => localeCompare a.title b.title
  | SortField.price, a, b => a.price - b.price
  | SortField.rating, a, b => a.rating.rate - b.rating.rate

/-- The full comparator passed to sort: the direction flips the sign. -/
def dirCmp (f : SortField) (o : SortOrder) (a b : Product) : Int :=
  match o with
  | SortOrder.asc => baseCmp f a b
  | SortOrder.desc => -(baseCmp f a b)

/-- Sort stage of filteredProducts: a stable sort by the comparator. -/
def sortStage (f : SortField) (o : SortOrder) (l : List Product) :
    List Product :=
  l.insertionSort (fun a b => dirCmp f o a b ≤ 0)

/-- The three filter stages of filteredProducts, i.e. the input that the
sort stage receives. -/
def filterStages (st : ProductsState) : List Product :=
  priceStage st.minPrice st.maxPrice
    (categoryStage st.selectedCategory (searchStage st.searchTerm st.products))

/-- The filteredProducts computed signal: search, category and price filters
followed by the stable sort. -/
def filteredProducts (st : ProductsState) : List Product :=
  sortStage st.sortBy st.sortOrder (filterStages st)

/-- The categories computed signal: deduplicated, sorted category names. -/
def categories (st : ProductsState) : List String :=
  ((st.products.map Product.category).dedup).insertionSort (fun a b => a ≤ b)

/-! Mutation traces over an Entity Store, for invariant claims: one create,
update or remove step packaged with the result the remote client settles it
with. -/

/-- One settled mutation of the products store together with the remote
client's result. -/
inductive StoreOp where
  | create (res : Except HttpErr Product)
  | update (i : Int) (res : Except HttpErr Product)
  | remove (i : Int) (res : Except HttpErr Unit)

/-- Applies one settled mutation to the store state. -/
def applyOp (st : ProductsState) : StoreOp → ProductsState
  | StoreOp.create res => st.addProduct res
  | StoreOp.update i res => st.updateProduct i res
  | StoreOp.remove i res => st.deleteProduct i res

/-- Applies a sequence of settled mutations left to right. -/
def applyOps (st : ProductsState) (ops : List StoreOp) : ProductsState :=
  ops.foldl applyOp st

/-- Side condition on one step: a successful create must return an entity
whose identifier is not already in the collection, and a successful update
for identifier i must return an entity whose identifier is i. -/
def stepOk (st : ProductsState) : StoreOp → Bool
  | StoreOp.create (Except.ok d) => decide (d.id ∉ st.products.map Product.id)
  | StoreOp.update i (Except.ok d) => decide (d.id = i)
  | _ => true

/-- The step side condition holding along a whole trace. -/
def traceOk (st : ProductsState) : List StoreOp → Bool
  | [] => true
  | op :: ops => stepOk st op && traceOk (applyOp st op) ops

/-! The response cache (http-cache.service.ts). -/

/-- A cache entry: payload, write timestamp and time-to-live (ms). -/
structure CacheEntry (α : Type) where
  data : α
  timestamp : Int
  ttl : Int
deriving DecidableEq

/-- The cache's Map, modelled as an association list with unique keys. -/
abbrev CacheMap (α : Type) := List (String × CacheEntry α)

/-- The default TTL of five minutes. -/
def defaultTTL : Int := 5 * 60 * 1000

/-- JS Map.set: replace in place when the key is present, append otherwise. -/
def mapSet {α : Type} (m : CacheMap α) (k : String) (e : CacheEntry α) :
    CacheMap α :=
  if m.any (fun kv => kv.1 == k) then
    m.map (fun kv => if kv.1 == k then (k, e) else kv)
  else m ++ [(k, e)]

/-- HttpCacheService.set: the stored ttl is the argument unless that is
falsy (absent or 0), in which case the default applies. -/
def cacheSet {α : Type} (m : CacheMap α) (now : Int) (key : String) (data : α)
    (ttl : Option Int) : CacheMap α :=
  mapSet m key
    ⟨data, now,
     match ttl with
     | none => defaultTTL
     | some t => if t = 0 then defaultTTL else t⟩

/-- HttpCacheService.get: a stale entry (now - timestamp > ttl) is deleted
and reported absent; otherwise the payload is returned. The pair carries the
returned value and the cache state after the call. -/
def cacheGet {α : Type} (m : CacheMap α) (now : Int) (key : String) :
    Option α × CacheMap α :=
  match m.find? (fun kv => kv.1 == key) with
  | none => (none, m)
  | some kv =>
      if now - kv.2.timestamp > kv.2.ttl then
        (none, m.filter (fun kv2 => kv2.1 != key))
      else (some kv.2.data, m)

/-! The cart store (cart.service.ts). -/

/-- A cart line item. -/
structure CartItem where
  productId : Int
  quantity : Int
deriving DecidableEq

/-- The Cart entity. -/
structure Cart where
  id : Int
  userId : Int
  date : String
  products : List CartItem
deriving DecidableEq

/-- The signal-backed state owned by one CartService instance. -/
structure CartState where
  carts : List Cart
  loading : Bool
  error : Option String
  currentCart : Option Cart
  cartLoading : Bool
  cartError : Option String
deriving DecidableEq

namespace CartState

/-- The loop body of addProductToCart on the line-item list: bump the first
line item with the given product id by q, or append a new item when none
matches. -/
def addProductItems (pid q : Int) : List CartItem → List CartItem
  | [] => [⟨pid, q⟩]
  | it :: rest =>
      if it.productId == pid then ⟨it.productId, it.quantity + q⟩ :: rest
      else it :: addProductItems pid q rest

/-- The loop body of updateProductQuantity: set the first matching item's
quantity to max 1 q; no match leaves the list unchanged. -/
def setQtyItems (pid q : Int) : List CartItem → List CartItem
  | [] => []
  | it :: rest =>
      if it.productId == pid then ⟨it.productId, max 1 q⟩ :: rest
      else it :: setQtyItems pid q rest

/-- The settlement of updateCart: on success the returned cart replaces the
matching member of the carts collection and becomes current; on failure only
the error is recorded. -/
def updateCartSettle (st : CartState) (i : Int)
    (res : Except HttpErr Cart) : CartState :=
  match res with
  | .ok data =>
      { st with carts := st.carts.map (fun c => if c.id == i then data else c),
                currentCart := some data, cartLoading := false }
  | .error e =>
      { st with
          cartError :=
            some (getErrorMessage e ("Failed to update cart " ++ toString i)),
          cartLoading := false }

/-- The synchronous part of addProductToCart: with no current cart only the
error is set; otherwise the current cart's item list is mutated in place and
updateCart starts (cartLoading true, cartError cleared). The remote
settlement is applied separately via updateCartSettle. -/
def addProductToCart (st : CartState) (pid q : Int) : CartState :=
  match st.currentCart with
  | none => { st with cartError := some "No cart selected" }
  | some cart =>
      { st with
          currentCart := some { cart with products := addProductItems pid q cart.products },
          cartLoading := true, cartError := none }

/-- The synchronous part of updateProductQuantity: mutates the first
matching line item in place and starts updateCart; when no line item
matches, nothing happens and no update is triggered. -/
def updateProductQuantity (st : CartState) (pid q : Int) : CartState :=
  match st.currentCart with
  | none => { st with cartError := some "No cart selected" }
  | some cart =>
      if cart.products.any (fun it => it.productId == pid) then
        { st with
            currentCart := some { cart with products := setQtyItems pid q cart.products },
            cartLoading := true, cartError := none }
      else st

end CartState

/-! Sample values used by closed witnesses and counterexamples. -/

/-- A sample product. -/
def sampleProduct (i : Int) (title : String) (price : Int) (rate : Int) :
    Product :=
  { id := i, title := title, price := price, description := "d",
    category := "c", image := "img", rating := { rate := rate, count := 3 } }

/-- A products-store state with default control values. -/
def baseState (ps : List Product) : ProductsState :=
  { products := ps, loading := false, error := none, currentProduct := none,
    productLoading := false, productError := none, searchTerm := "",
    selectedCategory := "", minPrice := 0, maxPrice := 10000,
    sortBy := SortField.name, sortOrder := SortOrder.asc }

/-- A cart-store state holding one current cart. -/
def baseCartState (c : Option Cart) : CartState :=
  { carts := [], loading := false, error := none, currentCart := c,
    cartLoading := false, cartError := none }

/-! Helper lemmas. -/

/-- Appending a fresh key to a map without it puts it where find? sees it. -/
theorem find_append_fresh {α : Type} (k : String) (e : CacheEntry α) :
    ∀ m : CacheMap α, m.any (fun kv => kv.1 == k) = false →
      (m ++ [(k, e)]).find? (fun kv => kv.1 == k) = some (k, e)
  | [], _ => by simp
  | x :: xs, h => by
    rw [List.any_cons, Bool.or_eq_false_iff] at h
    rw [List.cons_append, List.find?_cons_of_neg _ (by simp [h.1]),
        find_append_fresh k e xs h.2]

/-- Replacing an existing key in a map puts the new entry where find? sees
it. -/
theorem find_replace {α : Type} (k : String) (e : CacheEntry α) :
    ∀ m : CacheMap α, m.any (fun kv => kv.1 == k) = true →
      (m.map (fun kv => if kv.1 == k then (k, e) else kv)).find?
          (fun kv => kv.1 == k) = some (k, e)
  | x :: xs, h => by
    by_cases hx : x.1 == k
    · rw [List.map_cons, if_pos hx, List.find?_cons_of_pos _ (by simp)]
    · rw [List.any_cons, Bool.or_eq_true_iff] at h
      rw [List.map_cons, if_neg hx,
          List.find?_cons_of_neg _ (by simpa using hx),
          find_replace k e xs (h.resolve_left (by simpa using hx))]

/-- Map.set leaves the new entry where find? sees it. -/
theorem find_mapSet {α : Type} (m : CacheMap α) (k : String) (e : CacheEntry α) :
    (mapSet m k e).find? (fun kv => kv.1 == k) = some (k, e) := by
  by_cases h : m.any (fun kv => kv.1 == k) = true
  · rw [mapSet, if_pos h, find_replace k e m h]
  · rw [mapSet, if_neg h, find_append_fresh k e m (Bool.eq_false_iff.mpr h)]

/-- After deleting a key, find? cannot see it. -/
theorem find_filter_ne {α : Type} (m : CacheMap α) (k : String) :
    (m.filter (fun kv => kv.1 != k)).find? (fun kv => kv.1 == k) = none := by
  rw [List.find?_eq_none]
  intro x hx
  have hmem := (List.mem_filter.mp hx).2
  simp only [bne_iff_ne, ne_eq, decide_eq_true_eq] at hmem
  simp [hmem]

/-- The localeCompare model returns zero only on equal strings. -/
theorem localeCompare_eq_zero {a b : String} (h : localeCompare a b = 0) :
    a = b := by
  by_cases hab : a = b
  · exact hab
  · by_cases hlt : a < b
    · simp [localeCompare, hab, hlt] at h
    · simp [localeCompare, hab, hlt] at h

/-- Inserting an element of a filter class P, when it relates to the whole
class, prepends it to the class subsequence. -/
theorem filter_orderedInsert_pos {α : Type} (r : α → α → Prop) [DecidableRel r]
    (P : α → Bool) (x : α) (hx : P x = true) (hr : ∀ y, P y = true → r x y)
    (l : List α) :
    (List.orderedInsert r x l).filter P = x :: l.filter P := by
  induction l with
  | nil => simp [hx]
  | cons y ys ih =>
    by_cases hxy : r x y
    · simp [List.orderedInsert, if_pos hxy, hx]
    · have hPy : P y = false := by
        cases hy : P y
        · rfl
        · exact absurd (hr y hy) hxy
      simp [List.orderedInsert, if_neg hxy, hPy, ih]

/-- Inserting an element outside the filter class P leaves the class
subsequence untouched. -/
theorem filter_orderedInsert_neg {α : Type} (r : α → α → Prop) [DecidableRel r]
    (P : α → Bool) (x : α) (hx : P x = false) (l : List α) :
    (List.orderedInsert r x l).filter P = l.filter P := by
  induction l with
  | nil => simp [hx]
  | cons y ys ih =>
    by_cases hxy : r x y
    · simp [List.orderedInsert, if_pos hxy, hx]
    · rw [List.orderedInsert, if_neg hxy, List.filter_cons, List.filter_cons, ih]

/-- Insertion sort is stable: when the relation holds between any two
members of a class P, the subsequence of P-members is preserved. -/
theorem filter_insertionSort {α : Type} (r : α → α → Prop) [DecidableRel r]
    (P : α → Bool) (hP : ∀ x y, P x = true → P y = true → r x y)
    (l : List α) :
    (List.insertionSort r l).filter P = l.filter P := by
  induction l with
  | nil => rfl
  | cons x xs ih =>
    rw [List.insertionSort]
    cases hx : P x with
    | true =>
      rw [filter_orderedInsert_pos r P x hx (fun y hy => hP x y hx hy), ih,
          List.filter_cons_of_pos hx]
    | false =>
      rw [filter_orderedInsert_neg r P x hx, ih,
          List.filter_cons_of_neg (by simp [hx])]

/-- Two products tied with a common third under the base comparison are
related by the directed comparator, in both directions. -/
theorem baseCmp_tie (f : SortField) (o : SortOrder) (p x y : Product)
    (hx : baseCmp f x p = 0) (hy : baseCmp f y p = 0) :
    dirCmp f o x y ≤ 0 := by
  have hxy : baseCmp f x y = 0 := by
    cases f with
    | name =>
      have h1 := localeCompare_eq_zero (a := x.title) (b := p.title) hx
      have h2 := localeCompare_eq_zero (a := y.title) (b := p.title) hy
      simp [baseCmp, localeCompare, h1, h2]
    | price =>
      simp only [baseCmp] at hx hy ⊢
      omega
    | rating =>
      simp only [baseCmp] at hx hy ⊢
      omega
  cases o <;> simp [dirCmp, hxy]

/-! Claim theorems. -/

/-- C2 (code behavior at the failing input): when deleteProduct(1) settles
with a failure of status 500, the code still filters identifier 1 out of the
collection and clears the current product, besides recording the error; the
collection does not keep every entity it held before. -/
theorem deleteProduct_failure_still_removes :
    ((baseState [sampleProduct 1 "a" 10 4, sampleProduct 2 "b" 20 5]).deleteProduct 1
        (Except.error (HttpErr.withStatus 500))).products = [sampleProduct 2 "b" 20 5] ∧
    ((baseState [sampleProduct 1 "a" 10 4, sampleProduct 2 "b" 20 5]).deleteProduct 1
        (Except.error (HttpErr.withStatus 500))).currentProduct = none ∧
    ((baseState [sampleProduct 1 "a" 10 4, sampleProduct 2 "b" 20 5]).deleteProduct 1
        (Except.error (HttpErr.withStatus 500))).productError =
      some "Failed to delete product 1 (Status: 500)" ∧
    ((baseState [sampleProduct 1 "a" 10 4, sampleProduct 2 "b" 20 5]).deleteProduct 1
        (Except.error (HttpErr.withStatus 500))).products ≠
      (baseState [sampleProduct 1 "a" 10 4, sampleProduct 2 "b" 20 5]).products := by
  refine ⟨rfl, rfl, ?_, by decide⟩
  rfl

/-- C3: every failing loadProducts call settles with an empty collection, a
false loading flag and a non-null error; a status-0 failure records the
connection message. -/
theorem loadProducts_failure_spec (st : ProductsState) (e : HttpErr) :
    (st.loadProducts (Except.error e)).products = [] ∧
    (st.loadProducts (Except.error e)).loading = false ∧
    (st.loadProducts (Except.error e)).error ≠ none ∧
    (e = HttpErr.withStatus 0 →
      (st.loadProducts (Except.error e)).error =
        some "Network error. Please check your connection.") := by
  refine ⟨rfl, rfl, by simp [ProductsState.loadProducts], ?_⟩
  intro h
  subst h
  simp [ProductsState.loadProducts, getErrorMessage]

/-- Closed instance of loadProducts_failure_spec at a status-0 failure. -/
theorem loadProducts_failure_spec_witness :
    HttpErr.withStatus 0 = HttpErr.withStatus 0 ∧
    ((baseState [sampleProduct 1 "a" 10 4]).loadProducts
        (Except.error (HttpErr.withStatus 0))).error =
      some "Network error. Please check your connection." :=
  ⟨rfl, (loadProducts_failure_spec (baseState [sampleProduct 1 "a" 10 4])
      (HttpErr.withStatus 0)).2.2.2 rfl⟩

/-- C5 (counterexample): setPriceRange (-5) (-10) yields effective bounds
[0, -5], so the resulting range does not satisfy max' >= min'. -/
theorem setPriceRange_counterexample :
    ((baseState []).setPriceRange (-5) (-10)).minPrice = 0 ∧
    ((baseState []).setPriceRange (-5) (-10)).maxPrice = -5 ∧
    ¬ ((baseState []).setPriceRange (-5) (-10)).minPrice ≤
        ((baseState []).setPriceRange (-5) (-10)).maxPrice := by
  refine ⟨by decide, by decide, by decide⟩

/-- C5 (amended): setPriceRange stores min' = max(0, min) and
max' = max(min, max) where min is the original argument; hence min' >= 0,
max' >= min, and max' >= min' whenever min >= 0; the spec's two examples
hold as stated. -/
theorem setPriceRange_spec (st : ProductsState) (mn mx : Int) :
    (st.setPriceRange mn mx).minPrice = max 0 mn ∧
    (st.setPriceRange mn mx).maxPrice = max mn mx ∧
    0 ≤ (st.setPriceRange mn mx).minPrice ∧
    mn ≤ (st.setPriceRange mn mx).maxPrice ∧
    (0 ≤ mn →
      (st.setPriceRange mn mx).minPrice ≤ (st.setPriceRange mn mx).maxPrice) ∧
    (st.setPriceRange 5 2).minPrice = 5 ∧
    (st.setPriceRange 5 2).maxPrice = 5 ∧
    (st.setPriceRange (-3) 10).minPrice = 0 ∧
    (st.setPriceRange (-3) 10).maxPrice = 10 := by
  refine ⟨rfl, rfl, le_max_left 0 mn, le_max_left mn mx, ?_,
      by norm_num [ProductsState.setPriceRange],
      by norm_num [ProductsState.setPriceRange],
      by norm_num [ProductsState.setPriceRange],
      by norm_num [ProductsState.setPriceRange]⟩
  intro h
  show max 0 mn ≤ max mn mx
  rw [max_eq_right h]
  exact le_max_left mn mx

/-- Closed instance of setPriceRange_spec with the inner implication
discharged at min = 5. -/
theorem setPriceRange_spec_witness :
    (0 : Int) ≤ 5 ∧
    ((baseState []).setPriceRange 5 2).minPrice ≤
      ((baseState []).setPriceRange 5 2).maxPrice :=
  ⟨by decide, (setPriceRange_spec (baseState []) 5 2).2.2.2.2.1 (by decide)⟩

/-- C8: setSort on the active field keeps the field and flips the order;
setSort on a different field installs it and resets the order to
ascending. -/
theorem setSort_spec (st : ProductsState) (f : SortField) :
    (st.sortBy = f →
      (st.setSort f).sortBy = st.sortBy ∧
      (st.setSort f).sortOrder =
        (if st.sortOrder = SortOrder.asc then SortOrder.desc else SortOrder.asc)) ∧
    (st.sortBy ≠ f →
      (st.setSort f).sortBy = f ∧ (st.setSort f).sortOrder = SortOrder.asc) := by
  constructor
  · intro h
    simp [ProductsState.setSort, h]
  · intro h
    simp [ProductsState.setSort, h]

/-- Closed instance of setSort_spec on the active field name and on the
fresh field price. -/
theorem setSort_spec_witness :
    (((baseState []).setSort SortField.name).sortBy = (baseState []).sortBy ∧
     ((baseState []).setSort SortField.name).sortOrder =
       (if (baseState []).sortOrder = SortOrder.asc then SortOrder.desc
        else SortOrder.asc)) ∧
    (((baseState []).setSort SortField.price).sortBy = SortField.price ∧
     ((baseState []).setSort SortField.price).sortOrder = SortOrder.asc) :=
  ⟨(setSort_spec (baseState []) SortField.name).1 (by decide),
   (setSort_spec (baseState []) SortField.price).2 (by decide)⟩

/-- Evaluation of cacheGet on a map whose lookup result is known. -/
theorem cacheGet_found {α : Type} (m : CacheMap α) (now : Int) (key : String)
    (v : α) (ts ttl : Int)
    (hf : m.find? (fun kv => kv.1 == key) = some (key, ⟨v, ts, ttl⟩)) :
    cacheGet m now key =
      if now - ts > ttl then
        (none, m.filter (fun kv2 => kv2.1 != key))
      else (some v, m) := by
  unfold cacheGet
  rw [hf]

/-- C4 (counterexample): with ttl 0 the entry is stored with the default
TTL, so a get five milliseconds after set — strictly more than 0 after —
still returns the payload instead of absent. -/
theorem cache_ttl_zero_counterexample :
    (5 : Int) - 0 > 0 ∧
    (cacheGet (cacheSet ([] : CacheMap Int) 0 "k" 42 (some 0)) 5 "k").1 =
      some 42 := by
  exact ⟨by decide, by decide⟩

/-- C4 (amended): for every positive ttl t, a get strictly more than t
after the set reports absent and deletes the entry, and a get before t has
elapsed returns the payload. -/
theorem cache_ttl_positive_spec {α : Type} (m : CacheMap α) (k : String)
    (v : α) (t ts tg : Int) (ht : 0 < t) :
    (tg - ts > t →
      (cacheGet (cacheSet m ts k v (some t)) tg k).1 = none ∧
      ((cacheGet (cacheSet m ts k v (some t)) tg k).2).find?
          (fun kv => kv.1 == k) = none) ∧
    (tg - ts < t →
      (cacheGet (cacheSet m ts k v (some t)) tg k).1 = some v) := by
  have ht0 : ¬ t = 0 := by omega
  have hset : cacheSet m ts k v (some t) = mapSet m k ⟨v, ts, t⟩ := by
    simp [cacheSet, ht0]
  have hf : (cacheSet m ts k v (some t)).find? (fun kv => kv.1 == k) =
      some (k, ⟨v, ts, t⟩) := by
    rw [hset]
    exact find_mapSet m k ⟨v, ts, t⟩
  rw [cacheGet_found _ _ _ _ _ _ hf]
  constructor
  · intro hstale
    rw [if_pos hstale]
    exact ⟨rfl, by rw [hset]; exact find_filter_ne _ _⟩
  · intro hfresh
    rw [if_neg (by omega)]

/-- Closed instance of cache_ttl_positive_spec: ttl 10, get 20ms later is
absent. -/
theorem cache_ttl_positive_spec_witness :
    (0 : Int) < 10 ∧ (20 : Int) - 0 > 10 ∧
    (cacheGet (cacheSet ([] : CacheMap Int) 0 "a" 7 (some 10)) 20 "a").1 =
      none :=
  ⟨by decide, by decide,
   ((cache_ttl_positive_spec ([] : CacheMap Int) "a" 7 10 0 20
      (by decide)).1 (by decide)).1⟩

/-- C9: a set with explicit ttl 0 stores the entry with the default TTL of
300000 ms, and a get within five minutes returns the payload. -/
theorem cacheSet_zero_ttl_default {α : Type} (m : CacheMap α) (k : String)
    (v : α) (ts tg : Int) :
    (cacheSet m ts k v (some 0)).find? (fun kv => kv.1 == k) =
      some (k, ⟨v, ts, 300000⟩) ∧
    (tg - ts ≤ 300000 →
      (cacheGet (cacheSet m ts k v (some 0)) tg k).1 = some v) := by
  have hset : cacheSet m ts k v (some 0) = mapSet m k ⟨v, ts, 300000⟩ := by
    norm_num [cacheSet, defaultTTL]
  have hf : (cacheSet m ts k v (some 0)).find? (fun kv => kv.1 == k) =
      some (k, ⟨v, ts, 300000⟩) := by
    rw [hset]
    exact find_mapSet m k ⟨v, ts, 300000⟩
  refine ⟨hf, fun h => ?_⟩
  rw [cacheGet_found _ _ _ _ _ _ hf, if_neg (by omega)]

/-- Closed instance of cacheSet_zero_ttl_default at a 5 ms old entry. -/
theorem cacheSet_zero_ttl_default_witness :
    (5 : Int) - 0 ≤ 300000 ∧
    (cacheGet (cacheSet ([] : CacheMap Int) 0 "b" 9 (some 0)) 5 "b").1 =
      some 9 :=
  ⟨by decide,
   (cacheSet_zero_ttl_default ([] : CacheMap Int) "b" 9 0 5).2 (by decide)⟩

/-- C6: filteredProducts is the sort stage applied to the filter stages,
and the sort stage is stable: for every state (hence every field and both
directions) and every product p, the subsequence of filter-stage survivors
whose sort key ties with p is exactly preserved by the sort. -/
theorem sortStage_stable (st : ProductsState) (p : Product) :
    filteredProducts st = sortStage st.sortBy st.sortOrder (filterStages st) ∧
    (sortStage st.sortBy st.sortOrder (filterStages st)).filter
        (fun q => baseCmp st.sortBy q p == 0) =
      (filterStages st).filter (fun q => baseCmp st.sortBy q p == 0) := by
  refine ⟨rfl, ?_⟩
  apply filter_insertionSort
  intro x y hx hy
  exact baseCmp_tie st.sortBy st.sortOrder p x y
    (by simpa using hx) (by simpa using hy)

/-- Appending behaviour of the cart line-item loop when nothing matches. -/
theorem addItems_no_match (pid q : Int) :
    ∀ l : List CartItem, (∀ u ∈ l, u.productId ≠ pid) →
      CartState.addProductItems pid q l = l ++ [⟨pid, q⟩]
  | [], _ => rfl
  | it :: rest, h => by
    have hit : ¬ it.productId = pid := h it (List.mem_cons_self it rest)
    rw [CartState.addProductItems, if_neg (by simpa using hit),
        addItems_no_match pid q rest
          (fun u hu => h u (List.mem_cons_of_mem it hu)),
        List.cons_append]

/-- Bumping behaviour of the cart line-item loop at the first match. -/
theorem addItems_first_match (pid q : Int) (it : CartItem)
    (l2 : List CartItem) (hpid : it.productId = pid) :
    ∀ l1 : List CartItem, (∀ u ∈ l1, u.productId ≠ pid) →
      CartState.addProductItems pid q (l1 ++ it :: l2) =
        l1 ++ ⟨pid, it.quantity + q⟩ :: l2
  | [], _ => by
    rw [List.nil_append, CartState.addProductItems, if_pos (by simpa using hpid),
        hpid, List.nil_append]
  | u :: rest, h => by
    have hu : ¬ u.productId = pid := h u (List.mem_cons_self u rest)
    rw [List.cons_append, CartState.addProductItems, if_neg (by simpa using hu),
        addItems_first_match pid q it l2 hpid rest
          (fun w hw => h w (List.mem_cons_of_mem u hw)),
        List.cons_append]

/-- C7: the line-item update of addProductToCart appends a fresh item when
no line item matches the product id, bumps the first matching item's
quantity by the requested amount otherwise, and realizes the spec's
7-quantity-2-then-3 example. -/
theorem addProductItems_spec (l1 l2 : List CartItem) (it : CartItem)
    (pid q : Int) :
    ((∀ u ∈ l1 ++ l2, u.productId ≠ pid) →
      CartState.addProductItems pid q (l1 ++ l2) = (l1 ++ l2) ++ [⟨pid, q⟩]) ∧
    (it.productId = pid → (∀ u ∈ l1, u.productId ≠ pid) →
      CartState.addProductItems pid q (l1 ++ it :: l2) =
        l1 ++ ⟨pid, it.quantity + q⟩ :: l2) ∧
    CartState.addProductItems 7 2 [] = [⟨7, 2⟩] ∧
    CartState.addProductItems 7 3 [⟨7, 2⟩] = [⟨7, 5⟩] :=
  ⟨fun h => addItems_no_match pid q (l1 ++ l2) h,
   fun hpid h => addItems_first_match pid q it l2 hpid l1 h,
   by decide, by decide⟩

/-- Closed instance of addProductItems_spec: appending into an empty list
and bumping the single matching item. -/
theorem addProductItems_spec_witness :
    ((∀ u ∈ ([] : List CartItem) ++ [], u.productId ≠ 7) ∧
      CartState.addProductItems 7 3 (([] : List CartItem) ++ []) =
        (([] : List CartItem) ++ []) ++ [⟨7, 3⟩]) ∧
    ((⟨7, 2⟩ : CartItem).productId = 7 ∧
      CartState.addProductItems 7 3 (([] : List CartItem) ++ ⟨7, 2⟩ :: []) =
        ([] : List CartItem) ++ ⟨7, (⟨7, 2⟩ : CartItem).quantity + 3⟩ :: []) :=
  ⟨⟨by simp, (addProductItems_spec [] [] ⟨7, 2⟩ 7 3).1 (by simp)⟩,
   ⟨rfl, (addProductItems_spec [] [] ⟨7, 2⟩ 7 3).2.1 rfl (by simp)⟩⟩

/-- C10: with a current cart selected, addProductToCart installs the
mutated line-item list into the current cart synchronously, and a failing
settlement of the triggered updateCart leaves the mutated current cart in
place (no rollback); likewise for updateProductQuantity when a line item
matches. -/
theorem cart_local_mutation_not_rolled_back (st : CartState) (cart : Cart)
    (pid q : Int) (e : HttpErr) (h : st.currentCart = some cart) :
    (st.addProductToCart pid q).currentCart =
      some { cart with products := CartState.addProductItems pid q cart.products } ∧
    ((st.addProductToCart pid q).updateCartSettle cart.id
        (Except.error e)).currentCart = (st.addProductToCart pid q).currentCart ∧
    ((cart.products.any fun u => u.productId == pid) = true →
      (st.updateProductQuantity pid q).currentCart =
        some { cart with products := CartState.setQtyItems pid q cart.products } ∧
      ((st.updateProductQuantity pid q).updateCartSettle cart.id
          (Except.error e)).currentCart =
        (st.updateProductQuantity pid q).currentCart) := by
  refine ⟨?_, ?_, fun hany => ⟨?_, ?_⟩⟩
  · simp [CartState.addProductToCart, h]
  · simp [CartState.updateCartSettle]
  · simp [CartState.updateProductQuantity, h, hany]
  · simp [CartState.updateCartSettle]

/-- Closed instance of cart_local_mutation_not_rolled_back on a cart
holding line item (7, 2). -/
theorem cart_local_mutation_not_rolled_back_witness :
    (baseCartState (some ⟨1, 2, "d", [⟨7, 2⟩]⟩)).currentCart =
      some ⟨1, 2, "d", [⟨7, 2⟩]⟩ ∧
    (((baseCartState (some ⟨1, 2, "d", [⟨7, 2⟩]⟩)).addProductToCart 7
        3).updateCartSettle (Cart.id ⟨1, 2, "d", [⟨7, 2⟩]⟩)
        (Except.error HttpErr.generic)).currentCart =
      ((baseCartState (some ⟨1, 2, "d", [⟨7, 2⟩]⟩)).addProductToCart 7
        3).currentCart :=
  ⟨rfl,
   (cart_local_mutation_not_rolled_back (baseCartState (some ⟨1, 2, "d", [⟨7, 2⟩]⟩))
      ⟨1, 2, "d", [⟨7, 2⟩]⟩ 7 3 HttpErr.generic rfl).2.1⟩

/-- Each settled mutation preserves distinct identifiers under the trace
side condition. -/
theorem applyOp_nodup (st : ProductsState) (op : StoreOp)
    (h0 : (st.products.map Product.id).Nodup) (hs : stepOk st op = true) :
    ((applyOp st op).products.map Product.id).Nodup := by
  cases op with
  | create res =>
    cases res with
    | ok d =>
      have hd : d.id ∉ st.products.map Product.id :=
        of_decide_eq_true (by simpa [stepOk] using hs)
      simp only [applyOp, ProductsState.addProduct]
      rw [List.map_append]
      refine List.Nodup.append h0 (List.nodup_singleton d.id) ?_
      intro a ha hb
      simp only [List.map_cons, List.map_nil, List.mem_singleton] at hb
      exact hd (hb ▸ ha)
    | error e => simpa [applyOp, ProductsState.addProduct] using h0
  | update i res =>
    cases res with
    | ok d =>
      have hd : d.id = i := of_decide_eq_true (by simpa [stepOk] using hs)
      simp only [applyOp, ProductsState.updateProduct]
      rw [List.map_map]
      have heq : st.products.map (Product.id ∘ fun p => if p.id == i then d else p) =
          st.products.map Product.id := by
        apply List.map_congr_left
        intro p hp
        by_cases hpi : p.id = i
        · simp [Function.comp, hpi, hd]
        · simp [Function.comp, hpi]
      rw [heq]
      exact h0
    | error e => simpa [applyOp, ProductsState.updateProduct] using h0
  | remove i res =>
    cases res with
    | ok u =>
      simp only [applyOp, ProductsState.deleteProduct]
      exact ((List.filter_sublist _).map Product.id).nodup h0
    | error e =>
      simp only [applyOp, ProductsState.deleteProduct]
      exact ((List.filter_sublist _).map Product.id).nodup h0

/-- C1 (amended): starting from a collection with pairwise-distinct
identifiers, every create/update/remove trace whose successful creates
return identifiers not already in the collection and whose successful
updates return the requested identifier leaves the identifiers pairwise
distinct after every settled operation. -/
theorem applyOps_nodup_ids (ops : List StoreOp) (st : ProductsState)
    (h0 : (st.products.map Product.id).Nodup) (hok : traceOk st ops = true) :
    ((applyOps st ops).products.map Product.id).Nodup := by
  induction ops generalizing st with
  | nil => exact h0
  | cons op ops ih =>
    rw [traceOk, Bool.and_eq_true] at hok
    exact ih (applyOp st op) (applyOp_nodup st op h0 hok.1) hok.2

/-- C1 (counterexample): a settled create whose returned entity carries an
identifier already present duplicates that identifier. -/
theorem addProduct_duplicate_id_counterexample :
    ((baseState [sampleProduct 1 "a" 10 4]).products.map Product.id).Nodup ∧
    ¬ (((applyOps (baseState [sampleProduct 1 "a" 10 4])
          [StoreOp.create (Except.ok (sampleProduct 1 "z" 99 1))]).products.map
            Product.id).Nodup) := by
  exact ⟨by decide, by decide⟩

/-- Closed instance of applyOps_nodup_ids on a create, update, remove
trace. -/
theorem applyOps_nodup_ids_witness :
    (((baseState [sampleProduct 1 "a" 10 4]).products.map Product.id).Nodup ∧
     traceOk (baseState [sampleProduct 1 "a" 10 4])
       [StoreOp.create (Except.ok (sampleProduct 2 "b" 20 5)),
        StoreOp.update 2 (Except.ok (sampleProduct 2 "c" 30 2)),
        StoreOp.remove 1 (Except.ok ())] = true) ∧
    ((applyOps (baseState [sampleProduct 1 "a" 10 4])
        [StoreOp.create (Except.ok (sampleProduct 2 "b" 20 5)),
         StoreOp.update 2 (Except.ok (sampleProduct 2 "c" 30 2)),
         StoreOp.remove 1 (Except.ok ())]).products.map Product.id).Nodup :=
  ⟨⟨by decide, by decide⟩,
   applyOps_nodup_ids
     [StoreOp.create (Except.ok (sampleProduct 2 "b" 20 5)),
      StoreOp.update 2 (Except.ok (sampleProduct 2 "c" 30 2)),
      StoreOp.remove 1 (Except.ok ())]
     (baseState [sampleProduct 1 "a" 10 4]) (by decide) (by decide)⟩

end EcommerceStore
